import Mathlib

/-!
Shallow embedding of the `useGeminiLive` session-orchestrator hook
(src/unnamed/part_000) of the james-ia repository, together with proofs of
the behavioural claims about it.  Pure computations of the hook are
translated to Lean functions; the mutable refs and React state of the hook
become an explicit state record threaded through each callback, and every
callback of the source becomes a state-transition function.  Clock readings
and audio durations are modelled as rationals; four ghost fields record the
histories of `setStatus`, `source.start`, `stop` and `fetch` calls so that
theorems can speak about the calls a callback issues.
-/

set_option linter.unusedVariables false

namespace JamesIA

/-- Modelled from the spec: the session status enumeration of the data model
(`DISCONNECTED`, `CONNECTING`, `CONNECTED`, `ERROR`).  Its declaration lives
in `../types`, which is not among the provided sources; the four values and
their use are fixed by the hook itself. -/
inductive ConnectionState where
| DISCONNECTED
| CONNECTING
| CONNECTED
| ERROR
deriving DecidableEq, Repr

/-- Modelled from the spec: the sender tag of a log entry
(`user` or `ai` or `system`), declared in the missing `../types`. -/
inductive Sender where
| user
| ai
| system
deriving DecidableEq, Repr

/-- Modelled from the spec: a log entry record.  The wall-clock timestamp
(`new Date()` at append time) is omitted: no claim depends on it. -/
structure LogEntry where
  sender : Sender
  message : String
deriving DecidableEq, Repr

/-- An in-flight `AudioBufferSourceNode` registered in `sourcesRef`.
The field `stopFails` abstracts whether calling `stop()` on this handle
throws an exception. -/
structure AudioHandle where
  hid : Nat
  stopFails : Bool
deriving DecidableEq, Repr

/-- The decoded-audio payload carried by a server message: the duration the
decoded buffer would have, whether `decodeAudioData` rejects for it, and the
identity of the buffer-source node that would be created from it. -/
structure AudioChunk where
  duration : ℚ
  decodeFails : Bool
  hid : Nat
  stopFails : Bool
deriving DecidableEq, Repr

/-- The session configuration value (`AIConfig` in the missing `../types`):
provider selector, model id, voice name, system instruction and credential
string, exactly the fields the hook reads. -/
structure AIConfig where
  provider : String
  modelId : String
  voiceName : String
  systemInstruction : String
  apiKey : String
deriving DecidableEq, Repr

/-- One entry of a speech-recognition result list: the transcript of its
best alternative and its `isFinal` flag. -/
structure RecResult where
  transcript : String
  isFinal : Bool
deriving DecidableEq, Repr

/-- A speech-synthesis voice as the selection cascade reads it. -/
structure Voice where
  name : String
  lang : String
deriving DecidableEq, Repr

/-- The fields of a `SpeechSynthesisUtterance` the hook sets. -/
structure Utterance where
  text : String
  pitch : ℚ
  rate : ℚ
  voice : Option Voice
deriving DecidableEq, Repr

/-- The observable content of one completion `fetch`: target URL, model,
and the two chat messages (system instruction and sole user message). -/
structure CompletionRequest where
  url : String
  modelId : String
  systemInstruction : String
  userText : String
deriving DecidableEq, Repr

/-- A completion response: HTTP success flag, the upstream error message
(`err.error?.message`) when not ok, and the reply text
(`data.choices?.[0]?.message?.content`) when ok. -/
structure CompletionResponse where
  ok : Bool
  errorMessage : Option String
  content : Option String
deriving DecidableEq, Repr

/-- A live-session server message as `onmessage` destructures it:
optional input/output transcription deltas, the `turnComplete` flag, an
optional inline audio payload, and the `interrupted` flag. -/
structure ServerMessage where
  inputTranscription : Option String
  outputTranscription : Option String
  turnComplete : Bool
  audioData : Option AudioChunk
  interrupted : Bool
deriving DecidableEq, Repr

/-- The mutable state of the hook: the React state (`status`, `logs`,
`outputAnalyser`) and the refs (`inputContextRef`, `outputContextRef`,
`streamRef`, `processorRef`, `nextStartTimeRef`, `sourcesRef`,
`activeSessionRef`, `recognitionRef`, `isProcessingRef`, `currentInputRef`,
`currentOutputRef`).  Handle-valued refs are modelled by presence booleans;
`recognitionRunning` tracks whether the recognition engine is currently
started; `synthSpeaking` tracks whether speech synthesis has an in-flight
utterance; `lastUtterance` records the utterance last handed to `speak`.
The four trace fields are ghost histories: every `setStatus` value, every
`source.start(t)` call as a `(start, duration)` pair, every handle id a
`stop()` call was issued on, and every completion `fetch` issued. -/
structure HookState where
  status : ConnectionState
  logs : List LogEntry
  outputAnalyser : Bool
  inputContext : Bool
  outputContext : Bool
  stream : Bool
  processor : Bool
  nextStartTime : ℚ
  sources : List AudioHandle
  activeSession : Bool
  recognition : Bool
  recognitionRunning : Bool
  isProcessing : Bool
  currentInput : String
  currentOutput : String
  synthSpeaking : Bool
  lastUtterance : Option Utterance
  statusTrace : List ConnectionState
  startTrace : List (ℚ × ℚ)
  stopTrace : List Nat
  requestTrace : List CompletionRequest
deriving DecidableEq, Repr

/-- Source lines 32-34, `addLog`: append one entry to the log sequence. -/
def addLog (sender : Sender) (message : String) (s : HookState) : HookState :=
  { s with logs := s.logs ++ [{ sender := sender, message := message }] }

/-- A `setStatus` call: update the status and record it in the ghost
status trace. -/
def setStatus (c : ConnectionState) (s : HookState) : HookState :=
  { s with status := c, statusTrace := s.statusTrace ++ [c] }

/-- Character-list matching: `pat` matches `s` at its head. -/
def charsMatchAt : List Char → List Char → Bool
| [], _ => true
| _ :: _, [] => false
| a :: pat, b :: s => (a == b) && charsMatchAt pat s

/-- Character-list search: `pat` occurs somewhere in `s`. -/
def charsFound (pat : List Char) : List Char → Bool
| [] => charsMatchAt pat []
| b :: s => charsMatchAt pat (b :: s) || charsFound pat s

/-- JavaScript `s.includes(pat)`. -/
def strIncludes (s pat : String) : Bool :=
  charsFound pat.data s.data

/-- JavaScript `s.trim()`: strip whitespace from both ends. -/
def jsTrim (s : String) : String :=
  ⟨((s.data.dropWhile Char.isWhitespace).reverse.dropWhile Char.isWhitespace).reverse⟩

/-- JavaScript `s.toLowerCase()`: lowercase every character. -/
def jsToLower (s : String) : String :=
  ⟨s.data.map Char.toLower⟩

/-- Source lines 36-75, `cleanup`: best-effort stop of every registered
audio source (each `stop()` is wrapped in try/catch, so a failure is
swallowed and every handle still gets its stop attempt), clear the
registry, close both audio contexts, stop the microphone stream tracks,
disconnect the processor node, clear the recognition ref before stopping
the engine, cancel speech synthesis, drop the session ref, clear the
analyser, and set status `DISCONNECTED`.  Note that `nextStartTimeRef` is
not touched by `cleanup`. -/
def cleanup (s : HookState) : HookState :=
  let s1 := { s with stopTrace := s.stopTrace ++ s.sources.map AudioHandle.hid,
                     sources := [] }
  let s2 := { s1 with inputContext := false, outputContext := false }
  let s3 := { s2 with stream := false, processor := false }
  let s4 := { s3 with recognition := false, recognitionRunning := false }
  let s5 := { s4 with synthSpeaking := false }
  let s6 := { s5 with activeSession := false, outputAnalyser := false }
  setStatus ConnectionState.DISCONNECTED s6

/-- Source lines 427-430, `disconnect`: log, then run `cleanup`
unconditionally. -/
def disconnect (s : HookState) : HookState :=
  cleanup (addLog Sender.system "Terminating Uplink..." s)

/-- Source lines 388-392, the live session `onerror` callback: log a system
entry and set status `ERROR`.  It performs no teardown of its own. -/
def onerrorStep (errText : String) (s : HookState) : HookState :=
  setStatus ConnectionState.ERROR (addLog Sender.system ("System Error: " ++ errText) s)

/-- Erase the ghost trace fields, keeping exactly the state that is
observable through the hook (React state and refs). -/
def stripGhost (s : HookState) : HookState :=
  { s with statusTrace := [], startTrace := [], stopTrace := [],
           requestTrace := [], lastUtterance := none }

/-- Source line 350: the start-time clamp
`nextStartTimeRef.current = Math.max(nextStartTimeRef.current, ctx.currentTime)`. -/
def scheduleStart (cursor now : ℚ) : ℚ := max cursor now

/-- Source lines 364-365: start the source at the clamped time, then
advance the cursor by the decoded buffer's duration. -/
def scheduleAdvance (cursor now dur : ℚ) : ℚ := scheduleStart cursor now + dur

/-- Source lines 347-371 of `onmessage`: inbound-audio handling.  If the
message carries inline audio and the output context is present, the cursor
is clamped to `max(cursor, currentTime)` before decoding; a decode failure
leaves the clamp in place and schedules nothing (the error goes to the
console only); on success the new source starts at the clamped time, the
cursor advances by the buffer's duration, and the source is registered. -/
def audioStep (now : ℚ) (m : ServerMessage) (s : HookState) : HookState :=
  match m.audioData with
  | none => s
  | some c =>
    if s.outputContext then
      let cur := scheduleStart s.nextStartTime now
      if c.decodeFails then { s with nextStartTime := cur }
      else
        { s with nextStartTime := scheduleAdvance s.nextStartTime now c.duration,
                 sources := s.sources ++ [{ hid := c.hid, stopFails := c.stopFails }],
                 startTrace := s.startTrace ++ [(cur, c.duration)] }
    else s

/-- Source lines 329-334 of `onmessage`: append the transcription deltas to
the input and output accumulators. -/
def transcriptStep (m : ServerMessage) (s : HookState) : HookState :=
  let s1 :=
    match m.inputTranscription with
    | some t => { s with currentInput := s.currentInput ++ t }
    | none => s
  match m.outputTranscription with
  | some t => { s1 with currentOutput := s1.currentOutput ++ t }
  | none => s1

/-- Source lines 336-345 of `onmessage`: on `turnComplete`, flush each
accumulator whose trimmed content is non-empty as one log entry (`user`
first, then `ai`) carrying the trimmed text, clearing the flushed
accumulator; a whitespace-only accumulator produces no entry and is left
in place. -/
def turnCompleteStep (m : ServerMessage) (s : HookState) : HookState :=
  if m.turnComplete then
    let s1 :=
      if jsTrim s.currentInput = "" then s
      else { addLog Sender.user (jsTrim s.currentInput) s with currentInput := "" }
    if jsTrim s1.currentOutput = "" then s1
    else { addLog Sender.ai (jsTrim s1.currentOutput) s1 with currentOutput := "" }
  else s

/-- Source line 379, `sourcesRef.current.forEach(src => src.stop())` with
no try/catch: the handles are stopped in registration order until one
`stop()` throws; the result lists the ids a stop call was issued on (the
throwing call included) and whether an exception escaped the loop. -/
def forEachStopUnguarded : List AudioHandle → List Nat × Bool
| [] => ([], false)
| h :: hs =>
  if h.stopFails then ([h.hid], true)
  else
    let r := forEachStopUnguarded hs
    (h.hid :: r.1, r.2)

/-- Source lines 373-382 of `onmessage`: the interruption branch.  Log the
interruption; if the output accumulator is non-blank, flush it with an
`-- [INTERRUPTED]` annotation and clear it; then stop every registered
source with no guard, clear the registry and reset the cursor to 0.  If a
`stop()` throws, the exception escapes the handler before the registry is
cleared or the cursor reset; the second component reports that. -/
def interruptedStep (s : HookState) : HookState × Bool :=
  let s1 := addLog Sender.system "Interruption detected." s
  let s2 :=
    if jsTrim s1.currentOutput = "" then s1
    else { addLog Sender.ai (jsTrim s1.currentOutput ++ " -- [INTERRUPTED]") s1 with currentOutput := "" }
  let r := forEachStopUnguarded s2.sources
  let s3 := { s2 with stopTrace := s2.stopTrace ++ r.1 }
  if r.2 then (s3, true)
  else ({ s3 with sources := [], nextStartTime := 0 }, false)

/-- Source lines 328-383, the live session `onmessage` callback, handled
sequentially in delivery order: transcription deltas, then the
turn-complete flush, then inbound audio, then the interruption branch.
`now` is the output context's `currentTime` at handling time.  The boolean
reports whether an exception escaped (only possible from the interruption
branch). -/
def onmessage (now : ℚ) (m : ServerMessage) (s : HookState) : HookState × Bool :=
  let s1 := transcriptStep m s
  let s2 := turnCompleteStep m s1
  let s3 := audioStep now m s2
  if m.interrupted then interruptedStep s3 else (s3, false)

/-- A server message carrying only an inline audio payload. -/
def audioOnlyMsg (c : AudioChunk) : ServerMessage :=
  { inputTranscription := none, outputTranscription := none, turnComplete := false,
    audioData := some c, interrupted := false }

/-- A server message carrying only an output-transcription delta. -/
def outputDeltaMsg (t : String) : ServerMessage :=
  { inputTranscription := none, outputTranscription := some t, turnComplete := false,
    audioData := none, interrupted := false }

/-- A server message carrying only an input-transcription delta. -/
def inputDeltaMsg (t : String) : ServerMessage :=
  { inputTranscription := some t, outputTranscription := none, turnComplete := false,
    audioData := none, interrupted := false }

/-- A server message carrying only the turn-complete signal. -/
def turnCompleteMsg : ServerMessage :=
  { inputTranscription := none, outputTranscription := none, turnComplete := true,
    audioData := none, interrupted := false }

/-- Deliver a sequence of audio-only messages, each with its own clock
reading, in order through `onmessage`. -/
def runAudioMsgs (s : HookState) : List (ℚ × AudioChunk) → HookState
| [] => s
| pc :: rest => runAudioMsgs (onmessage pc.1 (audioOnlyMsg pc.2) s).1 rest

/-- Source lines 396-406, the catch block of `connectGemini`: one system
log entry (the distinguished service-unavailable text when the failure
message contains the known signature, a generic init-error text otherwise),
then `setStatus(ERROR)`, then full `cleanup`. -/
def geminiCatch (errorMessage : String) (s : HookState) : HookState :=
  let s1 :=
    if strIncludes errorMessage "service is currently unavailable" then
      addLog Sender.system "Error: Service Unavailable. The model server is currently overloaded or experiencing downtime. Please try again later." s
    else
      addLog Sender.system ("Init Error: " ++ errorMessage) s
  cleanup (setStatus ConnectionState.ERROR s1)

/-- Source lines 87-88: the base URL chosen from the credential string. -/
def baseUrl (apiKey : String) : String :=
  if apiKey.startsWith "gsk_" then "https://api.groq.com/openai/v1"
  else "https://api.openai.com/v1"

/-- Source line 165: the completion endpoint the request is fetched from. -/
def completionUrl (apiKey : String) : String :=
  baseUrl apiKey ++ "/chat/completions"

/-- Source lines 145-176, the recognition `onresult` callback up to the
completion fetch.  While `isProcessingRef` is set the event is ignored
entirely.  Otherwise, on a final result with non-blank transcript: log it
as `user`, set the processing flag, stop recognition, and issue the
completion request (recorded in the ghost request trace) carrying the
system instruction and the transcript as the sole user message. -/
def onresult (config : AIConfig) (results : List RecResult) (s : HookState) : HookState :=
  if s.isProcessing then s
  else
    match results.getLast? with
    | none => s
    | some r =>
      if r.isFinal ∧ 0 < (jsTrim r.transcript).length then
        let s1 := addLog Sender.user r.transcript s
        let s2 := { s1 with isProcessing := true, recognitionRunning := false }
        { s2 with requestTrace := s2.requestTrace ++
            [{ url := completionUrl config.apiKey, modelId := config.modelId,
               systemInstruction := config.systemInstruction, userText := r.transcript }] }
      else s

/-- Source lines 204-223: the first predicate of the voice cascade, the
named preferred voice in the Portuguese locale family. -/
def voicePred1 (v : Voice) : Bool :=
  strIncludes v.name "Microsoft Daniel" && strIncludes v.lang "pt"

/-- Second cascade predicate: any Portuguese-family voice whose lowercased
name contains a gender marker. -/
def voicePred2 (v : Voice) : Bool :=
  strIncludes v.lang "pt" &&
    (strIncludes (jsToLower v.name) "male" || strIncludes (jsToLower v.name) "masculino")

/-- Third cascade predicate: exact `pt-BR` locale. -/
def voicePred3 (v : Voice) : Bool :=
  v.lang == "pt-BR"

/-- Fourth cascade predicate: any Portuguese-family voice. -/
def voicePred4 (v : Voice) : Bool :=
  strIncludes v.lang "pt"

/-- Source lines 204-223: the voice-selection cascade, first match wins;
`none` when no predicate matches any voice. -/
def selectVoice (voices : List Voice) : Option Voice :=
  match voices.find? voicePred1 with
  | some v => some v
  | none =>
    match voices.find? voicePred2 with
    | some v => some v
    | none =>
      match voices.find? voicePred3 with
      | some v => some v
      | none => voices.find? voicePred4

/-- Source lines 190-227: the utterance constructed for the reply text,
with fixed pitch 1.0, rate 1.1, and the cascade-selected voice (the voice
field stays unset when the cascade finds nothing). -/
def buildUtterance (voices : List Voice) (text : String) : Utterance :=
  { text := text, pitch := 1, rate := 11/10, voice := selectVoice voices }

/-- Source lines 247-251, the catch block of the completion exchange: one
system log entry carrying the error message, clear the processing flag, and
restart recognition (start failures swallowed). -/
def completionCatch (msg : String) (s : HookState) : HookState :=
  { addLog Sender.system ("LLM Error: " ++ msg) s with
      isProcessing := false, recognitionRunning := true }

/-- Source lines 178-251: handling of the completion response.  A non-ok
response throws an error carrying `err.error?.message` when present (the
fixed fallback text otherwise), which the catch block turns into a system
log entry, a cleared processing flag and a recognition restart.  An ok
response logs the reply text as `ai` (empty string when absent); a
non-empty reply is handed to speech synthesis with the built utterance,
otherwise the processing flag is cleared and recognition restarted at
once. -/
def handleCompletion (voices : List Voice) (resp : CompletionResponse) (s : HookState) : HookState :=
  if resp.ok then
    let aiText := (resp.content).getD ""
    let s1 := addLog Sender.ai aiText s
    if aiText = "" then
      { s1 with isProcessing := false, recognitionRunning := true }
    else
      { s1 with synthSpeaking := true,
                lastUtterance := some (buildUtterance voices aiText) }
  else
    completionCatch ((resp.errorMessage).getD "API Request Failed") s

/-- JavaScript `config.apiKey || process.env.API_KEY`, then the falsiness
check of line 412: an empty config credential falls back to the
process-wide credential, and the resolved value is missing exactly when it
is empty (an absent environment variable is modelled by `none`, an empty
one by `some ""`; both are falsy). -/
def jsOr (a : String) (b : Option String) : String :=
  if a = "" then b.getD "" else a

/-- The system log message of the missing-credential failure path. -/
def keyMissingMsg : String :=
  "Critical Error: API Key missing. Please ensure your API_KEY environment variable is set."

/-- Which pipeline `connect` dispatched to. -/
inductive Dispatch where
| noPipeline
| gemini
| openai
deriving DecidableEq, Repr

/-- The outcome of a `connect` call: the orchestrator state after the
credential guard, the pipeline dispatched to, and the effective
configuration handed to it. -/
structure ConnectResult where
  state : HookState
  dispatch : Dispatch
  effectiveConfig : Option AIConfig
deriving DecidableEq, Repr

/-- Source lines 409-425, `connect`: resolve the credential from the config
or the process-wide fallback; when the resolution is empty, append one
system log entry, set status `ERROR` and return without dispatching;
otherwise dispatch to the provider-selected pipeline with the effective
configuration, the guard itself touching no state. -/
def connect (config : AIConfig) (envKey : Option String) (s : HookState) : ConnectResult :=
  let apiKey := jsOr config.apiKey envKey
  if apiKey = "" then
    { state := setStatus ConnectionState.ERROR (addLog Sender.system keyMissingMsg s),
      dispatch := Dispatch.noPipeline, effectiveConfig := none }
  else
    let eff := { config with apiKey := apiKey }
    if config.provider = "gemini" then
      { state := s, dispatch := Dispatch.gemini, effectiveConfig := some eff }
    else
      { state := s, dispatch := Dispatch.openai, effectiveConfig := some eff }

/-- The hook's initial state: `DISCONNECTED`, empty log, cursor 0, no
resources, empty accumulators, empty traces. -/
def initState : HookState :=
  { status := ConnectionState.DISCONNECTED, logs := [], outputAnalyser := false,
    inputContext := false, outputContext := false, stream := false, processor := false,
    nextStartTime := 0, sources := [], activeSession := false, recognition := false,
    recognitionRunning := false, isProcessing := false, currentInput := "",
    currentOutput := "", synthSpeaking := false, lastUtterance := none,
    statusTrace := [], startTrace := [], stopTrace := [], requestTrace := [] }

/-- A connected live-pipeline state: as initial but with the output context
present, so inbound audio is scheduled. -/
def liveState : HookState :=
  { initState with outputContext := true, status := ConnectionState.CONNECTED }

/-- The recorded `source.start` calls are back-to-back under cursor `c`:
each entry starts no earlier than the previous entry's end, and `c` is at
or after the last entry's end. -/
def traceOK : List (ℚ × ℚ) → ℚ → Prop
| [], _ => True
| p :: tl, c =>
  match tl with
  | [] => p.1 + p.2 ≤ c
  | q :: _ => p.1 + p.2 ≤ q.1 ∧ traceOK tl c

/-- Two concrete inbound audio chunks with their clock readings. -/
def c1msgs : List (ℚ × AudioChunk) :=
  [(0, { duration := 2, decodeFails := false, hid := 1, stopFails := false }),
   (1, { duration := 3, decodeFails := false, hid := 2, stopFails := false })]

/-- A session state with two registered healthy audio handles and a
non-zero playback cursor. -/
def c2state : HookState :=
  { liveState with
      sources := [{ hid := 1, stopFails := false }, { hid := 2, stopFails := false }],
      nextStartTime := 7 }

/-- A configuration whose credential string is empty. -/
def cfgEmpty : AIConfig :=
  { provider := "gemini", modelId := "gemini-2.5-flash", voiceName := "Puck",
    systemInstruction := "You are James.", apiKey := "" }

/-- A turn-based configuration whose credential has the Groq prefix. -/
def cfgGsk : AIConfig :=
  { provider := "openai", modelId := "llama-3.3-70b", voiceName := "",
    systemInstruction := "You are James.", apiKey := "gsk_abc" }

/-- A state in which a completion or synthesis cycle is outstanding. -/
def sProc : HookState :=
  { initState with isProcessing := true, recognition := true }

/-- A rejected completion response carrying an upstream message. -/
def respFail : CompletionResponse :=
  { ok := false, errorMessage := some "rate limit exceeded", content := none }

/-- A voice list on which only the third cascade predicate matches. -/
def voicesEx : List Voice :=
  [{ name := "Luciana", lang := "pt-BR" }]

theorem traceOK_mono : ∀ (tr : List (ℚ × ℚ)) (c c2 : ℚ),
    traceOK tr c → c ≤ c2 → traceOK tr c2
| [], _, _, _, _ => trivial
| [p], c, c2, h, hcc => le_trans h hcc
| p :: q :: tl, c, c2, h, hcc =>
  ⟨h.1, traceOK_mono (q :: tl) c c2 h.2 hcc⟩

theorem traceOK_snoc : ∀ (tr : List (ℚ × ℚ)) (c t d : ℚ),
    traceOK tr c → c ≤ t → traceOK (tr ++ [(t, d)]) (t + d)
| [], c, t, d, _, _ => le_refl (t + d)
| [p], c, t, d, h, hct => ⟨le_trans h hct, le_refl (t + d)⟩
| p :: q :: tl, c, t, d, h, hct =>
  ⟨h.1, traceOK_snoc (q :: tl) c t d h.2 hct⟩

theorem traceOK_tail : ∀ (p : ℚ × ℚ) (tl : List (ℚ × ℚ)) (c : ℚ),
    traceOK (p :: tl) c → traceOK tl c
| p, [], c, _ => trivial
| p, q :: tl, c, h => h.2

theorem traceOK_adjacent : ∀ (tr : List (ℚ × ℚ)) (c : ℚ), traceOK tr c →
    ∀ (i : Nat), i + 1 < tr.length →
    (tr.getD i (0, 0)).1 + (tr.getD i (0, 0)).2 ≤ (tr.getD (i + 1) (0, 0)).1
| [], _, _, i, hi => by simp at hi
| [p], _, _, i, hi => by simp at hi
| p :: q :: tl, c, h, 0, hi => h.1
| p :: q :: tl, c, h, Nat.succ i, hi => by
  have hi2 : i + 1 < (q :: tl).length := by
    simp only [List.length_cons] at hi ⊢
    omega
  simpa using traceOK_adjacent (q :: tl) c h.2 i hi2

theorem traceOK_ge_head : ∀ (p : ℚ × ℚ) (tl : List (ℚ × ℚ)) (c : ℚ),
    traceOK (p :: tl) c → (∀ r ∈ tl, (0:ℚ) ≤ r.2) →
    ∀ (k : Nat), k < tl.length → p.1 + p.2 ≤ (tl.getD k (0, 0)).1
| p, [], c, _, _, k, hk => by simp at hk
| p, q :: tl, c, h, hnn, 0, hk => h.1
| p, q :: tl, c, h, hnn, Nat.succ k, hk => by
  have hq : (0:ℚ) ≤ q.2 := hnn q (List.mem_cons_self q tl)
  have hnn2 : ∀ r ∈ tl, (0:ℚ) ≤ r.2 := fun r hr => hnn r (List.mem_cons_of_mem q hr)
  have hk2 : k < tl.length := by
    simp only [List.length_cons] at hk
    omega
  have step : q.1 + q.2 ≤ (tl.getD k (0, 0)).1 :=
    traceOK_ge_head q tl c h.2 hnn2 k hk2
  have : p.1 + p.2 ≤ q.1 + q.2 := le_trans h.1 (by linarith)
  simpa using le_trans this step

theorem traceOK_noOverlap : ∀ (tr : List (ℚ × ℚ)) (c : ℚ), traceOK tr c →
    (∀ r ∈ tr, (0:ℚ) ≤ r.2) → ∀ (i j : Nat), i < j → j < tr.length →
    (tr.getD i (0, 0)).1 + (tr.getD i (0, 0)).2 ≤ (tr.getD j (0, 0)).1
| [], _, _, _, i, j, hij, hj => by simp at hj
| p :: tl, c, h, hnn, 0, j, hij, hj => by
  obtain ⟨j2, rfl⟩ : ∃ j2, j = j2 + 1 := ⟨j - 1, by omega⟩
  have hj2 : j2 < tl.length := by
    simp only [List.length_cons] at hj
    omega
  have hnn2 : ∀ r ∈ tl, (0:ℚ) ≤ r.2 := fun r hr => hnn r (List.mem_cons_of_mem p hr)
  simpa using traceOK_ge_head p tl c h hnn2 j2 hj2
| p :: tl, c, h, hnn, Nat.succ i, j, hij, hj => by
  obtain ⟨j2, rfl⟩ : ∃ j2, j = j2 + 1 := ⟨j - 1, by omega⟩
  have hj2 : j2 < tl.length := by
    simp only [List.length_cons] at hj
    omega
  have hnn2 : ∀ r ∈ tl, (0:ℚ) ≤ r.2 := fun r hr => hnn r (List.mem_cons_of_mem p hr)
  simpa using traceOK_noOverlap tl c (traceOK_tail p tl c h) hnn2 i j2 (by omega) hj2

theorem audioStep_traceOK (now : ℚ) (m : ServerMessage) (s : HookState)
    (h : traceOK s.startTrace s.nextStartTime) :
    traceOK (audioStep now m s).startTrace (audioStep now m s).nextStartTime := by
  unfold audioStep
  cases hm : m.audioData with
  | none => exact h
  | some c =>
    by_cases hoc : s.outputContext = true
    · simp only [hoc, if_true]
      by_cases hdf : c.decodeFails = true
      · simp only [hdf, if_true]
        exact traceOK_mono _ _ _ h (le_max_left _ _)
      · simp only [hdf, if_false, Bool.false_eq_true]
        exact traceOK_snoc _ _ _ _ h (le_max_left _ _)
    · simp only [Bool.not_eq_true] at hoc
      simp only [hoc, Bool.false_eq_true, if_false]
      exact h

theorem onmessage_audioOnly (now : ℚ) (c : AudioChunk) (s : HookState) :
    onmessage now (audioOnlyMsg c) s = (audioStep now (audioOnlyMsg c) s, false) := rfl

theorem runAudioMsgs_traceOK (msgs : List (ℚ × AudioChunk)) :
    ∀ (s : HookState), traceOK s.startTrace s.nextStartTime →
    traceOK (runAudioMsgs s msgs).startTrace (runAudioMsgs s msgs).nextStartTime := by
  induction msgs with
  | nil => intro s h; exact h
  | cons pc rest ih =>
    intro s h
    show traceOK (runAudioMsgs (onmessage pc.1 (audioOnlyMsg pc.2) s).1 rest).startTrace _
    rw [onmessage_audioOnly]
    exact ih _ (audioStep_traceOK pc.1 (audioOnlyMsg pc.2) s h)

/-- C1: in the live pipeline, for every sequence of inbound audio chunks
handled in delivery order, each successfully decoded chunk starts at
`max(cursor, outputContext.currentTime)` and the cursor then advances by
that chunk's duration; consequently each scheduled chunk's start time is at
least the previous scheduled chunk's start time plus its duration, and with
non-negative durations no two scheduled chunks overlap. -/
theorem c1_playback_no_overlap (s0 : HookState)
    (h0 : traceOK s0.startTrace s0.nextStartTime)
    (msgs : List (ℚ × AudioChunk)) :
    (∀ (now : ℚ) (c : AudioChunk) (s : HookState),
        s.outputContext = true → c.decodeFails = false →
        (audioStep now (audioOnlyMsg c) s).startTrace
          = s.startTrace ++ [(max s.nextStartTime now, c.duration)] ∧
        (audioStep now (audioOnlyMsg c) s).nextStartTime
          = max s.nextStartTime now + c.duration) ∧
    (∀ (i : Nat), i + 1 < (runAudioMsgs s0 msgs).startTrace.length →
        ((runAudioMsgs s0 msgs).startTrace.getD i (0, 0)).1
            + ((runAudioMsgs s0 msgs).startTrace.getD i (0, 0)).2
          ≤ ((runAudioMsgs s0 msgs).startTrace.getD (i + 1) (0, 0)).1) ∧
    ((∀ r ∈ (runAudioMsgs s0 msgs).startTrace, (0:ℚ) ≤ r.2) →
      ∀ (i j : Nat), i < j → j < (runAudioMsgs s0 msgs).startTrace.length →
        ((runAudioMsgs s0 msgs).startTrace.getD i (0, 0)).1
            + ((runAudioMsgs s0 msgs).startTrace.getD i (0, 0)).2
          ≤ ((runAudioMsgs s0 msgs).startTrace.getD j (0, 0)).1) := by
  refine ⟨?_, ?_, ?_⟩
  · intro now c s hoc hdf
    unfold audioStep audioOnlyMsg
    simp [hoc, hdf, scheduleAdvance, scheduleStart]
  · intro i hi
    exact traceOK_adjacent _ _ (runAudioMsgs_traceOK msgs s0 h0) i hi
  · intro hnn i j hij hj
    exact traceOK_noOverlap _ _ (runAudioMsgs_traceOK msgs s0 h0) hnn i j hij hj

/-- Witness for C1 at two concrete chunks: chunk 0 starts at 0 with
duration 2, chunk 1 starts at 2, so the recorded start times are
separated. -/
theorem c1_playback_no_overlap_witness :
    ((runAudioMsgs liveState c1msgs).startTrace.getD 0 (0, 0)).1
        + ((runAudioMsgs liveState c1msgs).startTrace.getD 0 (0, 0)).2
      ≤ ((runAudioMsgs liveState c1msgs).startTrace.getD 1 (0, 0)).1 :=
  (c1_playback_no_overlap liveState trivial c1msgs).2.1 0 (by decide)

theorem forEachStopUnguarded_ok : ∀ (hs : List AudioHandle),
    (∀ a ∈ hs, a.stopFails = false) →
    forEachStopUnguarded hs = (hs.map AudioHandle.hid, false)
| [], _ => rfl
| h :: hs, hok => by
  have h1 : h.stopFails = false := hok h (List.mem_cons_self h hs)
  have h2 : ∀ a ∈ hs, a.stopFails = false :=
    fun a ha => hok a (List.mem_cons_of_mem h ha)
  simp [forEachStopUnguarded, h1, forEachStopUnguarded_ok hs h2]

/-- Counterexample to C2 as stated: full teardown does not reset the
playback cursor to baseline.  On a state whose cursor is 7, `cleanup`
leaves the cursor at 7, not 0 (the source of `cleanup`, lines 36-75, never
touches `nextStartTimeRef`). -/
theorem c2_cursor_not_reset_counterexample :
    (cleanup c2state).nextStartTime = 7 ∧ ((7:ℚ) ≠ 0) :=
  ⟨rfl, by norm_num⟩

/-- C2 (amended): on an interruption signal the registered handles are
stopped in order with no failure guard (a throwing `stop()` would abort the
handler), and when no registered handle's stop fails, every handle receives
a stop call, the registry is cleared and the cursor is reset to 0; on full
teardown every registered handle's stop is attempted with failures
swallowed and the registry is cleared, but the cursor is left unchanged
rather than reset. -/
theorem c2_stop_all_amended (s : HookState)
    (h : ∀ a ∈ s.sources, a.stopFails = false) :
    ((interruptedStep s).2 = false ∧
     (interruptedStep s).1.sources = [] ∧
     (interruptedStep s).1.nextStartTime = 0 ∧
     (interruptedStep s).1.stopTrace = s.stopTrace ++ s.sources.map AudioHandle.hid) ∧
    ((cleanup s).sources = [] ∧
     (cleanup s).stopTrace = s.stopTrace ++ s.sources.map AudioHandle.hid ∧
     (cleanup s).nextStartTime = s.nextStartTime) := by
  constructor
  · have hfe : forEachStopUnguarded s.sources = (s.sources.map AudioHandle.hid, false) :=
      forEachStopUnguarded_ok s.sources h
    unfold interruptedStep
    by_cases hout : jsTrim s.currentOutput = "" <;>
      simp [addLog, hout, hfe]
  · exact ⟨rfl, rfl, rfl⟩

/-- Witness for C2 (amended) on a state with two healthy handles and
cursor 7. -/
theorem c2_stop_all_amended_witness :
    ((interruptedStep c2state).2 = false ∧
     (interruptedStep c2state).1.sources = [] ∧
     (interruptedStep c2state).1.nextStartTime = 0 ∧
     (interruptedStep c2state).1.stopTrace
       = c2state.stopTrace ++ c2state.sources.map AudioHandle.hid) ∧
    ((cleanup c2state).sources = [] ∧
     (cleanup c2state).stopTrace
       = c2state.stopTrace ++ c2state.sources.map AudioHandle.hid ∧
     (cleanup c2state).nextStartTime = c2state.nextStartTime) :=
  c2_stop_all_amended c2state (by decide)

/-- C3: `disconnect` is idempotent.  Called twice in a row, the second call
changes nothing observable beyond appending its one log entry, the final
status is `DISCONNECTED`, running the teardown a second time is the
observable identity (so exactly one effective teardown runs), and the live
session's error callback performs no teardown of its own — so even
interleaved with an in-flight error callback, resources are released by
exactly one teardown. -/
theorem c3_disconnect_idempotent (s : HookState) :
    stripGhost (disconnect (disconnect s))
      = stripGhost (addLog Sender.system "Terminating Uplink..." (disconnect s)) ∧
    (disconnect (disconnect s)).status = ConnectionState.DISCONNECTED ∧
    stripGhost (cleanup (cleanup s)) = stripGhost (cleanup s) ∧
    (∀ e : String, (onerrorStep e s).sources = s.sources ∧
      (onerrorStep e s).stopTrace = s.stopTrace ∧
      (onerrorStep e s).inputContext = s.inputContext ∧
      (onerrorStep e s).outputContext = s.outputContext ∧
      (onerrorStep e s).stream = s.stream ∧
      (onerrorStep e s).processor = s.processor ∧
      (onerrorStep e s).recognition = s.recognition) :=
  ⟨rfl, rfl, rfl, fun e => ⟨rfl, rfl, rfl, rfl, rfl, rfl, rfl⟩⟩

/-- C4: when live-pipeline setup fails, the catch block appends exactly one
system log entry — the distinguished service-unavailable message when the
failure text contains the known signature, the generic init-error message
otherwise — the status transitions to `ERROR` (recorded in the status
trace, after which the teardown it triggers sets `DISCONNECTED`), and full
teardown runs, so no partially acquired contexts, stream or processor
remain held. -/
theorem c4_setup_failure_teardown (errText : String) (s : HookState) :
    (geminiCatch errText s).logs = s.logs ++
      [{ sender := Sender.system,
         message :=
           if strIncludes errText "service is currently unavailable" = true then
             "Error: Service Unavailable. The model server is currently overloaded or experiencing downtime. Please try again later."
           else "Init Error: " ++ errText }] ∧
    (geminiCatch errText s).statusTrace
      = s.statusTrace ++ [ConnectionState.ERROR, ConnectionState.DISCONNECTED] ∧
    (geminiCatch errText s).status = ConnectionState.DISCONNECTED ∧
    (geminiCatch errText s).inputContext = false ∧
    (geminiCatch errText s).outputContext = false ∧
    (geminiCatch errText s).stream = false ∧
    (geminiCatch errText s).processor = false ∧
    (geminiCatch errText s).sources = [] ∧
    (geminiCatch errText s).activeSession = false ∧
    (geminiCatch errText s).outputAnalyser = false := by
  unfold geminiCatch
  by_cases hsig : strIncludes errText "service is currently unavailable" = true <;>
    simp [hsig, cleanup, setStatus, addLog]

/-- C5: transcript deltas are appended to their buffers in delivery order;
on a turn-complete signal each buffer whose accumulated text is not
all-whitespace is flushed as exactly one log entry (`user` for the input
buffer, then `ai` for the output buffer) carrying the trimmed text, and the
flushed buffer is cleared; an all-whitespace accumulation produces no
entry; in particular output deltas "Hel" then "lo" followed by
turn-complete yield exactly one `ai` entry "Hello" and an empty output
buffer. -/
theorem c5_transcript_flush :
    (∀ (s : HookState) (t : String),
       (onmessage 0 (outputDeltaMsg t) s).1
         = { s with currentOutput := s.currentOutput ++ t }) ∧
    (∀ (s : HookState) (t : String),
       (onmessage 0 (inputDeltaMsg t) s).1
         = { s with currentInput := s.currentInput ++ t }) ∧
    (∀ s : HookState, ¬ jsTrim s.currentInput = "" → ¬ jsTrim s.currentOutput = "" →
       (onmessage 0 turnCompleteMsg s).1.logs = s.logs ++
         [{ sender := Sender.user, message := jsTrim s.currentInput },
          { sender := Sender.ai, message := jsTrim s.currentOutput }] ∧
       (onmessage 0 turnCompleteMsg s).1.currentInput = "" ∧
       (onmessage 0 turnCompleteMsg s).1.currentOutput = "") ∧
    (∀ s : HookState, jsTrim s.currentInput = "" → ¬ jsTrim s.currentOutput = "" →
       (onmessage 0 turnCompleteMsg s).1.logs = s.logs ++
         [{ sender := Sender.ai, message := jsTrim s.currentOutput }] ∧
       (onmessage 0 turnCompleteMsg s).1.currentOutput = "") ∧
    (∀ s : HookState, jsTrim s.currentInput = "" → jsTrim s.currentOutput = "" →
       (onmessage 0 turnCompleteMsg s).1 = s) ∧
    ((onmessage 0 turnCompleteMsg
        (onmessage 0 (outputDeltaMsg "lo")
          (onmessage 0 (outputDeltaMsg "Hel") initState).1).1).1.logs
        = [{ sender := Sender.ai, message := "Hello" }] ∧
     (onmessage 0 turnCompleteMsg
        (onmessage 0 (outputDeltaMsg "lo")
          (onmessage 0 (outputDeltaMsg "Hel") initState).1).1).1.currentOutput = "") := by
  refine ⟨fun s t => rfl, fun s t => rfl, ?_, ?_, ?_, ?_⟩
  · intro s hin hout
    unfold onmessage transcriptStep turnCompleteStep audioStep turnCompleteMsg
    simp [hin, hout, addLog]
  · intro s hin hout
    unfold onmessage transcriptStep turnCompleteStep audioStep turnCompleteMsg
    simp [hin, hout, addLog]
  · intro s hin hout
    unfold onmessage transcriptStep turnCompleteStep audioStep turnCompleteMsg
    simp [hin, hout]
  · exact ⟨by decide, by decide⟩

/-- Witness for C5: the concrete "Hel" then "lo" then turn-complete
scenario, extracted by applying the claim theorem. -/
theorem c5_transcript_flush_witness :
    (onmessage 0 turnCompleteMsg
        (onmessage 0 (outputDeltaMsg "lo")
          (onmessage 0 (outputDeltaMsg "Hel") initState).1).1).1.logs
        = [{ sender := Sender.ai, message := "Hello" }] ∧
    (onmessage 0 turnCompleteMsg
        (onmessage 0 (outputDeltaMsg "lo")
          (onmessage 0 (outputDeltaMsg "Hel") initState).1).1).1.currentOutput = "" :=
  (c5_transcript_flush).2.2.2.2.2

/-- C6: a config whose credential resolves to the empty string (no
process-wide fallback) makes `connect` append exactly one system log entry
about the missing credential, set status `ERROR`, acquire nothing, and
return without dispatching to either pipeline; a non-empty resolved
credential never takes this failure path. -/
theorem c6_missing_credential :
    (∀ (cfg : AIConfig) (s : HookState), cfg.apiKey = "" →
       (connect cfg none s).state.logs
         = s.logs ++ [{ sender := Sender.system, message := keyMissingMsg }] ∧
       (connect cfg none s).state.status = ConnectionState.ERROR ∧
       (connect cfg none s).dispatch = Dispatch.noPipeline ∧
       (connect cfg none s).state.inputContext = s.inputContext ∧
       (connect cfg none s).state.outputContext = s.outputContext ∧
       (connect cfg none s).state.stream = s.stream ∧
       (connect cfg none s).state.processor = s.processor ∧
       (connect cfg none s).state.sources = s.sources ∧
       (connect cfg none s).state.recognition = s.recognition ∧
       (connect cfg none s).state.recognitionRunning = s.recognitionRunning) ∧
    (∀ (cfg : AIConfig) (envKey : Option String) (s : HookState),
       ¬ jsOr cfg.apiKey envKey = "" →
       (connect cfg envKey s).dispatch ≠ Dispatch.noPipeline ∧
       (connect cfg envKey s).state = s) := by
  constructor
  · intro cfg s h
    unfold connect jsOr
    simp [h, setStatus, addLog]
  · intro cfg envKey s h
    unfold connect
    by_cases hp : cfg.provider = "gemini" <;> simp [h, hp]

/-- Witness for C6 at a concrete empty-credential config. -/
theorem c6_missing_credential_witness :
    (connect cfgEmpty none initState).state.status = ConnectionState.ERROR ∧
    (connect cfgEmpty none initState).dispatch = Dispatch.noPipeline ∧
    (connect cfgEmpty none initState).state.logs
      = initState.logs ++ [{ sender := Sender.system, message := keyMissingMsg }] :=
  ⟨((c6_missing_credential).1 cfgEmpty initState rfl).2.1,
   ((c6_missing_credential).1 cfgEmpty initState rfl).2.2.1,
   ((c6_missing_credential).1 cfgEmpty initState rfl).1⟩

/-- C7: a recognition final-result event arriving while the processing flag
is set is ignored entirely: the state is unchanged, so no log entry is
appended, no completion request is issued, and the flag is untouched. -/
theorem c7_ignored_while_processing (cfg : AIConfig) (results : List RecResult)
    (s : HookState) (h : s.isProcessing = true) :
    onresult cfg results s = s ∧
    (onresult cfg results s).logs.length = s.logs.length ∧
    (onresult cfg results s).requestTrace = s.requestTrace ∧
    (onresult cfg results s).isProcessing = s.isProcessing := by
  have he : onresult cfg results s = s := by
    unfold onresult
    simp [h]
  exact ⟨he, by rw [he], by rw [he], by rw [he]⟩

/-- Witness for C7: a final result delivered while processing leaves the
state unchanged. -/
theorem c7_ignored_while_processing_witness :
    onresult cfgGsk [{ transcript := "status report", isFinal := true }] sProc = sProc :=
  (c7_ignored_while_processing cfgGsk
    [{ transcript := "status report", isFinal := true }] sProc rfl).1

theorem charsMatchAt_refl : ∀ (l : List Char), charsMatchAt l l = true
| [] => rfl
| a :: l => by simp [charsMatchAt, charsMatchAt_refl l]

theorem charsFound_self (l : List Char) : charsFound l l = true := by
  cases l with
  | nil => rfl
  | cons a t => simp [charsFound, charsMatchAt_refl]

theorem charsFound_append (pat : List Char) : ∀ (pre : List Char),
    charsFound pat (pre ++ pat) = true
| [] => by simpa using charsFound_self pat
| b :: pre => by simp [charsFound, charsFound_append pat pre]

theorem strIncludes_append (p m : String) : strIncludes (p ++ m) m = true := by
  show charsFound m.data (p ++ m).data = true
  have hd : (p ++ m).data = p.data ++ m.data := String.data_append p m
  rw [hd]
  exact charsFound_append m.data p.data

/-- C8: a non-ok completion response raises an error carrying the upstream
message when present (a fixed fallback text otherwise), and the failure
produces exactly one system log entry containing that message, clears the
processing flag, restarts recognition, and leaves the session status
unchanged. -/
theorem c8_completion_failure (voices : List Voice) (resp : CompletionResponse)
    (s : HookState) (h : resp.ok = false) :
    (handleCompletion voices resp s).logs = s.logs ++
      [{ sender := Sender.system,
         message := "LLM Error: " ++ (resp.errorMessage).getD "API Request Failed" }] ∧
    (∀ m : String, resp.errorMessage = some m →
       strIncludes ("LLM Error: " ++ (resp.errorMessage).getD "API Request Failed") m
         = true) ∧
    (handleCompletion voices resp s).isProcessing = false ∧
    (handleCompletion voices resp s).recognitionRunning = true ∧
    (handleCompletion voices resp s).status = s.status := by
  have he : handleCompletion voices resp s
      = completionCatch ((resp.errorMessage).getD "API Request Failed") s := by
    unfold handleCompletion
    simp [h]
  refine ⟨?_, ?_, ?_, ?_, ?_⟩
  · rw [he]
    simp [completionCatch, addLog]
  · intro m hm
    rw [hm]
    simpa using strIncludes_append "LLM Error: " m
  · rw [he]; rfl
  · rw [he]; rfl
  · rw [he]; rfl

/-- Witness for C8: the "rate limit exceeded" rejection scenario. -/
theorem c8_completion_failure_witness :
    (handleCompletion [] respFail sProc).logs = sProc.logs ++
      [{ sender := Sender.system,
         message := "LLM Error: " ++ (respFail.errorMessage).getD "API Request Failed" }] ∧
    (handleCompletion [] respFail sProc).isProcessing = false ∧
    (handleCompletion [] respFail sProc).recognitionRunning = true :=
  ⟨(c8_completion_failure [] respFail sProc rfl).1,
   (c8_completion_failure [] respFail sProc rfl).2.2.1,
   (c8_completion_failure [] respFail sProc rfl).2.2.2.1⟩

/-- C9: the voice selection tries the four predicates in order and the
first match wins — named preferred voice in the locale family, then
gender-marked name in the family, then exact `pt-BR` locale, then any
family voice — and when none matches, the selection is `none` and the
utterance's voice field stays unset, which is not an error. -/
theorem c9_voice_cascade (voices : List Voice) :
    (∀ v, voices.find? voicePred1 = some v → selectVoice voices = some v) ∧
    (voices.find? voicePred1 = none →
       ∀ v, voices.find? voicePred2 = some v → selectVoice voices = some v) ∧
    (voices.find? voicePred1 = none → voices.find? voicePred2 = none →
       ∀ v, voices.find? voicePred3 = some v → selectVoice voices = some v) ∧
    (voices.find? voicePred1 = none → voices.find? voicePred2 = none →
       voices.find? voicePred3 = none →
       ∀ v, voices.find? voicePred4 = some v → selectVoice voices = some v) ∧
    (voices.find? voicePred1 = none → voices.find? voicePred2 = none →
       voices.find? voicePred3 = none → voices.find? voicePred4 = none →
       selectVoice voices = none ∧
       ∀ t : String, (buildUtterance voices t).voice = none) := by
  refine ⟨?_, ?_, ?_, ?_, ?_⟩
  · intro v h1
    unfold selectVoice
    rw [h1]
  · intro h1 v h2
    unfold selectVoice
    rw [h1, h2]
  · intro h1 h2 v h3
    unfold selectVoice
    rw [h1, h2, h3]
  · intro h1 h2 h3 v h4
    unfold selectVoice
    rw [h1, h2, h3, h4]
  · intro h1 h2 h3 h4
    have hsel : selectVoice voices = none := by
      unfold selectVoice
      rw [h1, h2, h3, h4]
    exact ⟨hsel, fun t => hsel⟩

/-- Witness for C9: on a list with one plain `pt-BR` voice, the first two
predicates fail and the exact-locale predicate selects it. -/
theorem c9_voice_cascade_witness :
    selectVoice voicesEx = some { name := "Luciana", lang := "pt-BR" } :=
  (c9_voice_cascade voicesEx).2.2.1 (by decide) (by decide)
    { name := "Luciana", lang := "pt-BR" } (by decide)

/-- C10: the completion request issued for a final transcript goes to the
Groq base URL exactly when the resolved credential starts with `gsk_`, and
to the OpenAI base URL otherwise, so the credential value deterministically
fixes the receiving host. -/
theorem c10_completion_url (cfg : AIConfig) (results : List RecResult)
    (s : HookState) (r : RecResult)
    (h1 : s.isProcessing = false) (h2 : results.getLast? = some r)
    (h3 : r.isFinal = true) (h4 : 0 < (jsTrim r.transcript).length) :
    (onresult cfg results s).requestTrace = s.requestTrace ++
      [{ url := (if cfg.apiKey.startsWith "gsk_" then "https://api.groq.com/openai/v1"
                 else "https://api.openai.com/v1") ++ "/chat/completions",
         modelId := cfg.modelId, systemInstruction := cfg.systemInstruction,
         userText := r.transcript }] ∧
    (cfg.apiKey.startsWith "gsk_" = true →
       completionUrl cfg.apiKey = "https://api.groq.com/openai/v1/chat/completions") ∧
    (cfg.apiKey.startsWith "gsk_" = false →
       completionUrl cfg.apiKey = "https://api.openai.com/v1/chat/completions") := by
  refine ⟨?_, ?_, ?_⟩
  · unfold onresult
    simp [h1, h2, h3, h4, addLog, completionUrl, baseUrl]
  · intro hg
    unfold completionUrl baseUrl
    simp [hg]
  · intro hg
    unfold completionUrl baseUrl
    simp [hg]

/-- Witness for C10: a `gsk_`-prefixed credential routes the request for a
concrete final transcript to the Groq endpoint. -/
theorem c10_completion_url_witness :
    (onresult cfgGsk [{ transcript := "status report", isFinal := true }]
        initState).requestTrace
      = initState.requestTrace ++
        [{ url := (if cfgGsk.apiKey.startsWith "gsk_" then "https://api.groq.com/openai/v1"
                   else "https://api.openai.com/v1") ++ "/chat/completions",
           modelId := cfgGsk.modelId, systemInstruction := cfgGsk.systemInstruction,
           userText := "status report" }] :=
  (c10_completion_url cfgGsk [{ transcript := "status report", isFinal := true }]
      initState { transcript := "status report", isFinal := true } rfl rfl rfl
      (by decide)).1

end JamesIA
